import Mathlib

/-!
Verification of the SCCT match-state acquisition and outcome-resolution
subsystem (`scct_predictions/scct.py` and the payout route in
`scct_predictions/__main__.py`), shallowly embedded in Lean.

Modelling conventions:
* Python `int` is embedded as `Int` (arbitrary precision in both).
* Python's builtin `int(s)` / `int(s, 16)` string parsers are embedded by
  `pyIntDec?` / `pyIntHex?` below, restricted to ASCII whitespace, ASCII
  digits and the CPython underscore-grouping rule.
* Python `int(b / 2)` (true division then truncation toward zero) is embedded
  as `Int.tdiv b 2`, which also truncates toward zero; the embedding ignores
  the loss of precision of IEEE doubles above 2^53, irrelevant at the
  magnitudes a best-of value can take.
* Filesystem and socket effects are abstracted as explicit arguments: a
  directory listing value, a per-port liveness oracle, and a per-file
  content oracle.  Exceptions become `Except` values; an exception that the
  source does not catch is `PyErr.osError`, while `SCCTError` / `ValueError`
  raise sites keep their message strings.
-/

/-- Digit value of an ASCII character for bases up to 16, mirroring the digit
classification CPython's `int(s, base)` applies (restricted to ASCII). -/
def digitVal? (base : Nat) (c : Char) : Option Nat :=
  let v : Option Nat :=
    if '0' ≤ c ∧ c ≤ '9' then some (c.toNat - '0'.toNat)
    else if 'a' ≤ c ∧ c ≤ 'f' then some (c.toNat - 'a'.toNat + 10)
    else if 'A' ≤ c ∧ c ≤ 'F' then some (c.toNat - 'A'.toNat + 10)
    else none
  match v with
  | some d => if d < base then some d else none
  | none => none

/-- Continuation of a digit run: after at least one digit has been read, each
following character is a digit, or a single underscore that must be followed
by a digit (CPython's grouping rule: no trailing, leading or doubled
underscore). -/
def digitsLoop (base : Nat) (acc : Nat) : List Char → Option Nat
  | [] => some acc
  | '_' :: c :: cs =>
    match digitVal? base c with
    | some d => digitsLoop base (acc * base + d) cs
    | none => none
  | ['_'] => none
  | c :: cs =>
    match digitVal? base c with
    | some d => digitsLoop base (acc * base + d) cs
    | none => none

/-- A nonempty underscore-grouped digit run; `none` when the run is empty or
malformed. -/
def udigits (base : Nat) : List Char → Option Nat
  | [] => none
  | c :: cs =>
    match digitVal? base c with
    | some d => digitsLoop base d cs
    | none => none

/-- Leading and trailing whitespace removal performed by CPython's `int`
before parsing (restricted to ASCII whitespace). -/
def pyStrip (cs : List Char) : List Char :=
  ((cs.dropWhile Char.isWhitespace).reverse.dropWhile Char.isWhitespace).reverse

/-- Embedding of Python's `int(s)` (base 10): optional sign, then a nonempty
underscore-grouped digit run. -/
def pyIntDec? (s : String) : Option Int :=
  match pyStrip s.data with
  | '+' :: rest => (udigits 10 rest).map fun n => (n : Int)
  | '-' :: rest => (udigits 10 rest).map fun n => -(n : Int)
  | rest => (udigits 10 rest).map fun n => (n : Int)

/-- Hexadecimal digit run allowing the optional `0x`/`0X` tag, which may be
followed by one grouping underscore, as CPython's `int(s, 16)` accepts. -/
def hexBody (cs : List Char) : Option Nat :=
  match cs with
  | '0' :: 'x' :: '_' :: rest => udigits 16 rest
  | '0' :: 'x' :: rest => udigits 16 rest
  | '0' :: 'X' :: '_' :: rest => udigits 16 rest
  | '0' :: 'X' :: rest => udigits 16 rest
  | rest => udigits 16 rest

/-- Embedding of Python's `int(s, 16)`: optional sign, then a hexadecimal
body with optional `0x` tag. -/
def pyIntHex? (s : String) : Option Int :=
  match pyStrip s.data with
  | '+' :: rest => (hexBody rest).map fun n => (n : Int)
  | '-' :: rest => (hexBody rest).map fun n => -(n : Int)
  | rest => (hexBody rest).map fun n => (n : Int)

/-- Classified failures of the subsystem, following the raise sites of
`scct.py`: each constructor corresponds to one family of `SCCTError` (or
`ValueError`) raises and carries the source's message string. -/
inductive ScctErr where
  | parseError (msg : String)
  | discoveryError (msg : String)
  | notFoundError (msg : String)
  | fieldUnavailable (msg : String)
deriving DecidableEq

/-- Result of a Python call that can also die with an exception the source
never catches (`PermissionError`/`OSError` escaping the `except` clauses). -/
inductive PyErr where
  | scctError (e : ScctErr)
  | osError
deriving DecidableEq

/-- Dataclass `MatchDetails` of `scct.py` with all nine fields, the last
three being the constructor's defaulted derived slots. -/
structure MatchDetails where
  team1 : String
  team2 : String
  bestof : Int
  score1 : Int
  score2 : Int
  league : String
  winning_score : Int
  draw_possible : Bool
  draw_score : Int
deriving DecidableEq

/-- Derivation part of `MatchDetails.__post_init__` (lines 62-65 of
`scct.py`): `draw_possible` and `winning_score` are always overwritten, but
`draw_score` is only overwritten when `draw_possible` holds.  `int(bestof/2)`
truncates toward zero, hence `Int.tdiv`. -/
def MatchDetails.post_init (m : MatchDetails) : MatchDetails :=
  let dp := m.bestof % 2 == 0
  { m with draw_possible := dp,
           winning_score := m.bestof.tdiv 2 + 1,
           draw_score := if dp then m.bestof.tdiv 2 else m.draw_score }

/-- The dataclass constructor with all nine arguments supplied explicitly;
`__post_init__` runs after field assignment. -/
def mkMatchDetails (team1 team2 : String) (bestof score1 score2 : Int) (league : String)
    (winning_score : Int) (draw_possible : Bool) (draw_score : Int) : MatchDetails :=
  MatchDetails.post_init
    ⟨team1, team2, bestof, score1, score2, league, winning_score, draw_possible, draw_score⟩

/-- The dataclass constructor with the three derived slots left at their
declared defaults `-1`, `False`, `-1`. -/
def mkMatchDetailsDefault (team1 team2 : String) (bestof score1 score2 : Int)
    (league : String) : MatchDetails :=
  mkMatchDetails team1 team2 bestof score1 score2 league (-1) false (-1)

@[simp] theorem mkMD_team1 (t1 t2 : String) (bo s1 s2 : Int) (lg : String) (ws : Int)
    (dp : Bool) (ds : Int) : (mkMatchDetails t1 t2 bo s1 s2 lg ws dp ds).team1 = t1 := rfl

@[simp] theorem mkMD_team2 (t1 t2 : String) (bo s1 s2 : Int) (lg : String) (ws : Int)
    (dp : Bool) (ds : Int) : (mkMatchDetails t1 t2 bo s1 s2 lg ws dp ds).team2 = t2 := rfl

@[simp] theorem mkMD_bestof (t1 t2 : String) (bo s1 s2 : Int) (lg : String) (ws : Int)
    (dp : Bool) (ds : Int) : (mkMatchDetails t1 t2 bo s1 s2 lg ws dp ds).bestof = bo := rfl

@[simp] theorem mkMD_score1 (t1 t2 : String) (bo s1 s2 : Int) (lg : String) (ws : Int)
    (dp : Bool) (ds : Int) : (mkMatchDetails t1 t2 bo s1 s2 lg ws dp ds).score1 = s1 := rfl

@[simp] theorem mkMD_score2 (t1 t2 : String) (bo s1 s2 : Int) (lg : String) (ws : Int)
    (dp : Bool) (ds : Int) : (mkMatchDetails t1 t2 bo s1 s2 lg ws dp ds).score2 = s2 := rfl

@[simp] theorem mkMD_league (t1 t2 : String) (bo s1 s2 : Int) (lg : String) (ws : Int)
    (dp : Bool) (ds : Int) : (mkMatchDetails t1 t2 bo s1 s2 lg ws dp ds).league = lg := rfl

@[simp] theorem mkMD_winning_score (t1 t2 : String) (bo s1 s2 : Int) (lg : String) (ws : Int)
    (dp : Bool) (ds : Int) :
    (mkMatchDetails t1 t2 bo s1 s2 lg ws dp ds).winning_score = bo.tdiv 2 + 1 := rfl

@[simp] theorem mkMD_draw_possible (t1 t2 : String) (bo s1 s2 : Int) (lg : String) (ws : Int)
    (dp : Bool) (ds : Int) :
    (mkMatchDetails t1 t2 bo s1 s2 lg ws dp ds).draw_possible = (bo % 2 == 0) := rfl

@[simp] theorem mkMD_draw_score (t1 t2 : String) (bo s1 s2 : Int) (lg : String) (ws : Int)
    (dp : Bool) (ds : Int) :
    (mkMatchDetails t1 t2 bo s1 s2 lg ws dp ds).draw_score
      = if bo % 2 == 0 then bo.tdiv 2 else ds := rfl

/-- Dynamically typed value, for modelling the `isinstance` checks of
`MatchDetails.__post_init__` on arbitrarily typed constructor arguments.
(Python's `bool`-is-an-`int` subtlety is not needed by any claim and is left
out of the model.) -/
inductive PyVal where
  | vstr (s : String)
  | vint (n : Int)
  | vnone
deriving DecidableEq

/-- Truth of `isinstance(v, str)` on a `PyVal`. -/
def PyVal.isStr : PyVal → Bool
  | .vstr _ => true
  | _ => false

/-- Truth of `isinstance(v, int)` on a `PyVal`. -/
def PyVal.isInt : PyVal → Bool
  | .vint _ => true
  | _ => false

/-- `MatchDetails(...)` on dynamically typed arguments: the `isinstance`
checks of `__post_init__` run in source order (team1, team2, bestof, score1,
score2, league) and the first failure raises `ValueError` with the source's
message; only when all pass does the derivation run. -/
def MatchDetails.initDyn (team1 team2 bestof score1 score2 league : PyVal) :
    Except String MatchDetails :=
  match team1 with
  | .vstr t1 =>
    match team2 with
    | .vstr t2 =>
      match bestof with
      | .vint bo =>
        match score1 with
        | .vint s1 =>
          match score2 with
          | .vint s2 =>
            match league with
            | .vstr lg => .ok (mkMatchDetailsDefault t1 t2 bo s1 s2 lg)
            | _ => .error "Bad value for league"
          | _ => .error "Bad value for score2"
        | _ => .error "Bad value for score1"
      | _ => .error "Bad value for bestof"
    | _ => .error "Bad value for team2"
  | _ => .error "Bad value for team1"

/-- The six raw field strings `get_match_details` reads from the active
profile's `casting_data` files (the I/O itself is abstracted away; this
models the parsing portion, lines 81-93 of `scct.py`). -/
structure RawFields where
  team1 : String
  team2 : String
  bestof : String
  score1 : String
  score2 : String
  league : String

/-- Python's slice `s[2:]`: drop the first two characters, empty when the
string is shorter. -/
def drop2 (s : String) : String := String.mk (s.data.drop 2)

/-- Parsing portion of `get_match_details`: `int(bestof_raw[2:])` is
evaluated first, then `int(score1_raw)`, then `int(score2_raw)`; any
`ValueError` is wrapped into `SCCTError("Could not get data from SCCT: ...")`
(the trailing Python exception text is not modelled).  The `isinstance`
checks of the constructor cannot fail here since all arguments are already
correctly typed. -/
def get_match_details (raw : RawFields) : Except ScctErr MatchDetails :=
  match pyIntDec? (drop2 raw.bestof) with
  | none => .error (.parseError "Could not get data from SCCT")
  | some bo =>
    match pyIntDec? raw.score1 with
    | none => .error (.parseError "Could not get data from SCCT")
    | some s1 =>
      match pyIntDec? raw.score2 with
      | none => .error (.parseError "Could not get data from SCCT")
      | some s2 => .ok (mkMatchDetailsDefault raw.team1 raw.team2 bo s1 s2 raw.league)

/-- Dataclass `Profile` of `scct.py`. -/
structure Profile where
  profile_id : String
  port : Int
deriving DecidableEq

/-- `Profile.__init__`: the port is `int(profile_id, 16)`; a failed parse
raises `ValueError` with the source's message. -/
def Profile.init? (profile_id : String) : Except String Profile :=
  match pyIntHex? profile_id with
  | some port => .ok ⟨profile_id, port⟩
  | none => .error ("could not get port info from profile: " ++ profile_id)

/-- Base directory of SCCT profiles (the user's home directory component is
abstracted away). -/
def SCCT_PROFILES_DIR : String :=
  "AppData/Local/team pheeniX/StarCraft-Casting-Tool/profiles"

/-- Result of `os.listdir(SCCT_PROFILES_DIR)`: a listing, or
`FileNotFoundError` (directory missing), or `PermissionError` (directory
present but unreadable). -/
inductive DirListing where
  | ok (ids : List String)
  | missing
  | unreadable

/-- Loop body of `get_active_profile`: construct each `Profile`, skipping
(with a log line) the ids whose hex parse raises `ValueError`, return the
first one whose port probe `is_active()` succeeds, and raise `SCCTError`
after exhausting the list.  The TCP probe is abstracted into the `isOpen`
oracle. -/
def findActive (isOpen : Int → Bool) : List String → Except PyErr Profile
  | [] => .error (.scctError (.notFoundError "could not find any active SCCT profile"))
  | id :: rest =>
    match Profile.init? id with
    | .error _ => findActive isOpen rest
    | .ok p => if isOpen p.port then .ok p else findActive isOpen rest

/-- `get_active_profile`: `os.listdir` raising `FileNotFoundError` is caught
and re-raised as `SCCTError`; a `PermissionError` from an unreadable
directory is not caught by the `except FileNotFoundError` clause and escapes
unclassified. -/
def get_active_profile (dir : DirListing) (isOpen : Int → Bool) : Except PyErr Profile :=
  match dir with
  | .missing =>
    .error (.scctError (.discoveryError
      ("could not get profile directories from " ++ SCCT_PROFILES_DIR)))
  | .unreadable => .error .osError
  | .ok ids => findActive isOpen ids

/-- Result of `open(path, "r+")` followed by `read()` on one casting-data
file: the full contents, or `FileNotFoundError`, or a `PermissionError`-like
failure for a file that exists but cannot be opened for reading and
writing. -/
inductive FileOutcome where
  | found (content : String)
  | fileNotFound
  | unreadable

/-- `Profile.get_casting_data`: returns the full text of the file; only
`FileNotFoundError` is caught and re-raised as `SCCTError`, so an unreadable
file escapes as an unclassified `OSError`.  The filesystem is abstracted into
the per-filename oracle `fs`; the message keeps the path components below the
profiles directory. -/
def Profile.get_casting_data (p : Profile) (fs : String → FileOutcome)
    (filename : String) : Except PyErr String :=
  match fs filename with
  | .found content => .ok content
  | .fileNotFound =>
    .error (.scctError (.fieldUnavailable
      ("Could not get data from file " ++ p.profile_id ++ "/casting_data/" ++ filename)))
  | .unreadable => .error .osError

/-- Outcome classification resolved at payout time, as the spec enumerates
it; each constructor carries the `winning_outcome` label string the payout
route computes. -/
inductive Outcome where
  | team1Win (label : String)
  | team2Win (label : String)
  | draw (label : String)
  | undetermined
deriving DecidableEq

/-- Outcome-resolution chain of the `/predictions/payout` route
(`__main__.py` lines 144-159): the four-armed `if`/`elif` cascade on the
match record; the final `abort(500, "Could not determine outcome ...")`
branch is the non-error `undetermined` classification. -/
def resolveOutcome (m : MatchDetails) : Outcome :=
  if m.score1 ≥ m.winning_score then .team1Win m.team1
  else if m.score2 ≥ m.winning_score then .team2Win m.team2
  else if m.score1 = m.score2 ∧ m.score1 + m.score2 = m.bestof ∧ m.draw_possible = true then
    .draw (toString m.draw_score ++ " - " ++ toString m.draw_score)
  else .undetermined

/-- Claim C1: for every match record built from inputs with scores `≥ 0` and
`bestof ≥ 1`, outcome resolution follows the four-step precedence exactly:
`team1Win` labelled with team1 whenever `score1 ≥ winning_score` (regardless
of `score2`); else `team2Win` labelled with team2 whenever
`score2 ≥ winning_score`; else `draw` labelled
`"<draw_score> - <draw_score>"` whenever `score1 = score2`,
`score1 + score2 = bestof` and `draw_possible`; else `undetermined`. -/
theorem c1_outcome_precedence (t1 t2 lg : String) (bo s1 s2 : Int)
    (hs1 : 0 ≤ s1) (hs2 : 0 ≤ s2) (hbo : 1 ≤ bo) :
    (s1 ≥ (mkMatchDetailsDefault t1 t2 bo s1 s2 lg).winning_score →
      resolveOutcome (mkMatchDetailsDefault t1 t2 bo s1 s2 lg) = .team1Win t1) ∧
    (s1 < (mkMatchDetailsDefault t1 t2 bo s1 s2 lg).winning_score →
      s2 ≥ (mkMatchDetailsDefault t1 t2 bo s1 s2 lg).winning_score →
      resolveOutcome (mkMatchDetailsDefault t1 t2 bo s1 s2 lg) = .team2Win t2) ∧
    (s1 < (mkMatchDetailsDefault t1 t2 bo s1 s2 lg).winning_score →
      s2 < (mkMatchDetailsDefault t1 t2 bo s1 s2 lg).winning_score →
      s1 = s2 → s1 + s2 = bo →
      (mkMatchDetailsDefault t1 t2 bo s1 s2 lg).draw_possible = true →
      resolveOutcome (mkMatchDetailsDefault t1 t2 bo s1 s2 lg)
        = .draw (toString (mkMatchDetailsDefault t1 t2 bo s1 s2 lg).draw_score ++ " - "
            ++ toString (mkMatchDetailsDefault t1 t2 bo s1 s2 lg).draw_score)) ∧
    (s1 < (mkMatchDetailsDefault t1 t2 bo s1 s2 lg).winning_score →
      s2 < (mkMatchDetailsDefault t1 t2 bo s1 s2 lg).winning_score →
      ¬(s1 = s2 ∧ s1 + s2 = bo ∧
          (mkMatchDetailsDefault t1 t2 bo s1 s2 lg).draw_possible = true) →
      resolveOutcome (mkMatchDetailsDefault t1 t2 bo s1 s2 lg) = .undetermined) := by
  refine ⟨?_, ?_, ?_, ?_⟩
  · intro h
    simp only [mkMatchDetailsDefault, mkMD_winning_score] at h
    simp [resolveOutcome, mkMatchDetailsDefault, h]
  · intro h1 h2
    simp only [mkMatchDetailsDefault, mkMD_winning_score] at h1 h2
    simp [resolveOutcome, mkMatchDetailsDefault, h1.not_le, h2]
  · intro h1 h2 he hsum hdp
    simp only [mkMatchDetailsDefault, mkMD_winning_score] at h1 h2
    simp only [mkMatchDetailsDefault, mkMD_draw_possible] at hdp
    simp [resolveOutcome, mkMatchDetailsDefault, h1.not_le, h2.not_le, he, hsum, hdp]
    omega
  · intro h1 h2 hnot
    simp only [mkMatchDetailsDefault, mkMD_winning_score] at h1 h2
    simp only [mkMatchDetailsDefault, mkMD_draw_possible] at hnot
    simp [resolveOutcome, mkMatchDetailsDefault, h1.not_le, h2.not_le]
    intro he hsum
    have hne : ¬((bo % 2 == 0) = true) := fun hdp => hnot ⟨he, hsum, hdp⟩
    simp only [beq_iff_eq] at hne
    omega

/-- Witness for C1 at a concrete input: best-of 5, scores `(3, 1)` resolve to
a team-1 win labelled with the team-1 name. -/
theorem c1_witness :
    resolveOutcome (mkMatchDetailsDefault "T1" "T2" 5 3 1 "L") = Outcome.team1Win "T1" :=
  (c1_outcome_precedence "T1" "T2" "L" 5 3 1 (by decide) (by decide) (by decide)).1 (by decide)

/-- Counterexample for C2: the constructor does not always recompute
`draw_score` — with odd `bestof = 5` an explicitly supplied `draw_score = 42`
is retained in the record after construction (while a default construction
leaves the declared default `-1`), contradicting "the derived fields are
always recomputed from the base inputs and never retain independently
supplied values". -/
theorem c2_counterexample :
    (mkMatchDetails "a" "b" 5 0 0 "l" 99 true 42).draw_score = 42 ∧
    (mkMatchDetails "a" "b" 5 0 0 "l" (-1) false (-1)).draw_score = -1 := by
  decide

/-- Claim C2 (amended): for every construction with `bestof ≥ 1`,
`winning_score` and `draw_possible` are always recomputed as
`floor(bestof/2) + 1` and `bestof mod 2 = 0`; `draw_score` is recomputed to
`floor(bestof/2)` exactly when `draw_possible` holds, and when `bestof` is
odd it retains the supplied value (default `-1`). -/
theorem c2_derived_fields (t1 t2 lg : String) (bo s1 s2 ws0 ds0 : Int) (dp0 : Bool)
    (hbo : 1 ≤ bo) :
    (mkMatchDetails t1 t2 bo s1 s2 lg ws0 dp0 ds0).winning_score = bo / 2 + 1 ∧
    ((mkMatchDetails t1 t2 bo s1 s2 lg ws0 dp0 ds0).draw_possible = true ↔ bo % 2 = 0) ∧
    ((mkMatchDetails t1 t2 bo s1 s2 lg ws0 dp0 ds0).draw_possible = true →
      (mkMatchDetails t1 t2 bo s1 s2 lg ws0 dp0 ds0).draw_score = bo / 2) ∧
    ((mkMatchDetails t1 t2 bo s1 s2 lg ws0 dp0 ds0).draw_possible = false →
      (mkMatchDetails t1 t2 bo s1 s2 lg ws0 dp0 ds0).draw_score = ds0) := by
  have htd : bo.tdiv 2 = bo / 2 := Int.tdiv_eq_ediv (by omega) (by omega)
  refine ⟨?_, ?_, ?_, ?_⟩
  · rw [mkMD_winning_score, htd]
  · rw [mkMD_draw_possible]
    exact beq_iff_eq
  · intro hdp
    rw [mkMD_draw_possible] at hdp
    rw [mkMD_draw_score, if_pos hdp, htd]
  · intro hdp
    rw [mkMD_draw_possible] at hdp
    rw [mkMD_draw_score, if_neg (by simp [hdp])]

/-- Witness for C2 at a concrete input: best-of 4 gives winning score 3, draw
possible, draw score 2, and an even best-of never keeps a supplied
`draw_score`. -/
theorem c2_witness :
    (mkMatchDetails "a" "b" 4 1 0 "l" (-1) false (-1)).winning_score = (4 : Int) / 2 + 1 ∧
    ((mkMatchDetails "a" "b" 4 1 0 "l" (-1) false (-1)).draw_possible = true ↔
      (4 : Int) % 2 = 0) ∧
    ((mkMatchDetails "a" "b" 4 1 0 "l" (-1) false (-1)).draw_possible = true →
      (mkMatchDetails "a" "b" 4 1 0 "l" (-1) false (-1)).draw_score = (4 : Int) / 2) ∧
    ((mkMatchDetails "a" "b" 4 1 0 "l" (-1) false (-1)).draw_possible = false →
      (mkMatchDetails "a" "b" 4 1 0 "l" (-1) false (-1)).draw_score = -1) :=
  c2_derived_fields "a" "b" "l" 4 1 0 (-1) (-1) false (by decide)

/-- Claim C9: outcome resolution is a pure function of the record's fields:
two records that agree on every field resolve to the same outcome. -/
theorem c9_deterministic (m m' : MatchDetails)
    (h : m.team1 = m'.team1 ∧ m.team2 = m'.team2 ∧ m.bestof = m'.bestof ∧
      m.score1 = m'.score1 ∧ m.score2 = m'.score2 ∧ m.league = m'.league ∧
      m.winning_score = m'.winning_score ∧ m.draw_possible = m'.draw_possible ∧
      m.draw_score = m'.draw_score) :
    resolveOutcome m = resolveOutcome m' := by
  obtain ⟨h1, h2, h3, h4, h5, h6, h7, h8, h9⟩ := h
  cases m
  cases m'
  simp only at h1 h2 h3 h4 h5 h6 h7 h8 h9
  subst h1 h2 h3 h4 h5 h6 h7 h8 h9
  rfl

/-- Witness for C9 at a concrete input: a default-constructed best-of-4
record and a literally written record with the same nine field values
resolve identically. -/
theorem c9_witness :
    resolveOutcome (mkMatchDetailsDefault "a" "b" 4 2 2 "l")
      = resolveOutcome ⟨"a", "b", 4, 2, 2, "l", 3, true, 2⟩ :=
  c9_deterministic _ _ (by decide)

/-- Counterexample for C3: the remainder after the two stripped characters is
parsed by Python's `int`, which accepts a sign — raw `bestof` content
`"BO-5"` does not fail but builds a record whose `bestof` is `-5`, a
non-positive value, contradicting "parses the remainder as a positive
integer". -/
theorem c3_counterexample :
    get_match_details ⟨"a", "b", "BO-5", "0", "0", "l"⟩
      = .ok (mkMatchDetailsDefault "a" "b" (-5) 0 0 "l") ∧
    (mkMatchDetailsDefault "a" "b" (-5) 0 0 "l").bestof = -5 ∧
    ¬(1 ≤ (mkMatchDetailsDefault "a" "b" (-5) 0 0 "l").bestof) :=
  ⟨rfl, by decide, by decide⟩

/-- Claim C3 (amended): building the match state strips the first two
characters of the raw `bestof` string and parses the remainder as an integer
(sign accepted, positivity not enforced); when the remainder is not a valid
integer literal the build fails with the `ParseError`-classified failure, and
on success the record's `bestof` is exactly the parsed remainder; in
particular raw content `"XY"` (empty remainder) yields `ParseError`. -/
theorem c3_bestof_parse (raw : RawFields) :
    (pyIntDec? (drop2 raw.bestof) = none →
      get_match_details raw = .error (.parseError "Could not get data from SCCT")) ∧
    (∀ m, get_match_details raw = .ok m → pyIntDec? (drop2 raw.bestof) = some m.bestof) ∧
    (raw.bestof = "XY" →
      get_match_details raw = .error (.parseError "Could not get data from SCCT")) := by
  refine ⟨?_, ?_, ?_⟩
  · intro h
    simp [get_match_details, h]
  · intro m hm
    unfold get_match_details at hm
    cases hb : pyIntDec? (drop2 raw.bestof) with
    | none => rw [hb] at hm; exact absurd hm (by simp)
    | some bo =>
      rw [hb] at hm
      cases h1 : pyIntDec? raw.score1 with
      | none => rw [h1] at hm; exact absurd hm (by simp)
      | some s1 =>
        rw [h1] at hm
        cases h2 : pyIntDec? raw.score2 with
        | none => rw [h2] at hm; exact absurd hm (by simp)
        | some s2 =>
          rw [h2] at hm
          simp only [Except.ok.injEq] at hm
          subst hm
          rfl
  · intro hxy
    have h : pyIntDec? (drop2 raw.bestof) = none := by rw [hxy]; decide
    simp [get_match_details, h]

/-- Witness for C3 at a concrete input: raw `bestof` content `"XY"` makes the
build fail with the `ParseError`-classified failure. -/
theorem c3_witness :
    get_match_details ⟨"a", "b", "XY", "0", "0", "l"⟩
      = .error (.parseError "Could not get data from SCCT") :=
  (c3_bestof_parse ⟨"a", "b", "XY", "0", "0", "l"⟩).2.2 rfl

/-- Counterexample for C6: raw score content `"-1"` is accepted by Python's
`int` and successfully builds a record whose `score1` is `-1`, contradicting
"a string that does not denote a non-negative integer never yields a
successfully built record". -/
theorem c6_counterexample :
    get_match_details ⟨"a", "b", "BO3", "-1", "0", "l"⟩
      = .ok (mkMatchDetailsDefault "a" "b" 3 (-1) 0 "l") ∧
    (mkMatchDetailsDefault "a" "b" 3 (-1) 0 "l").score1 = -1 ∧
    ¬(0 ≤ (mkMatchDetailsDefault "a" "b" 3 (-1) 0 "l").score1) :=
  ⟨rfl, by decide, by decide⟩

/-- Claim C6 (amended): building the match state parses each raw score string
as an integer (sign accepted, non-negativity not enforced); a score string
that is not a valid integer literal makes the build fail with the
`ParseError`-classified failure, and on success each record score is exactly
its parsed string. -/
theorem c6_score_parse (raw : RawFields) :
    (pyIntDec? raw.score1 = none →
      get_match_details raw = .error (.parseError "Could not get data from SCCT")) ∧
    (pyIntDec? raw.score2 = none →
      get_match_details raw = .error (.parseError "Could not get data from SCCT")) ∧
    (∀ m, get_match_details raw = .ok m →
      pyIntDec? raw.score1 = some m.score1 ∧ pyIntDec? raw.score2 = some m.score2) := by
  refine ⟨?_, ?_, ?_⟩
  · intro h
    unfold get_match_details
    cases hb : pyIntDec? (drop2 raw.bestof) with
    | none => rfl
    | some bo => rw [h]
  · intro h
    unfold get_match_details
    cases hb : pyIntDec? (drop2 raw.bestof) with
    | none => rfl
    | some bo =>
      cases h1 : pyIntDec? raw.score1 with
      | none => rfl
      | some s1 => rw [h]
  · intro m hm
    unfold get_match_details at hm
    cases hb : pyIntDec? (drop2 raw.bestof) with
    | none => rw [hb] at hm; exact absurd hm (by simp)
    | some bo =>
      rw [hb] at hm
      cases h1 : pyIntDec? raw.score1 with
      | none => rw [h1] at hm; exact absurd hm (by simp)
      | some s1 =>
        rw [h1] at hm
        cases h2 : pyIntDec? raw.score2 with
        | none => rw [h2] at hm; exact absurd hm (by simp)
        | some s2 =>
          rw [h2] at hm
          simp only [Except.ok.injEq] at hm
          subst hm
          exact ⟨rfl, rfl⟩

/-- Witness for C6 at a concrete input: a non-numeric raw score string makes
the build fail with the `ParseError`-classified failure. -/
theorem c6_witness :
    get_match_details ⟨"a", "b", "BO3", "x", "0", "l"⟩
      = .error (.parseError "Could not get data from SCCT") :=
  (c6_score_parse ⟨"a", "b", "BO3", "x", "0", "l"⟩).1 (by decide)

/-- Claim C10: the two leading characters of the raw `bestof` string are
discarded without inspection — for any two characters followed by a remainder
that parses as an integer, the build succeeds (given parseable scores) and
the record's `bestof` is the parsed remainder. -/
theorem c10_bestof_tag_ignored (ch1 ch2 : Char) (rest t1 t2 lg s1s s2s : String)
    (n a b : Int) (hb : pyIntDec? rest = some n) (h1 : pyIntDec? s1s = some a)
    (h2 : pyIntDec? s2s = some b) :
    get_match_details ⟨t1, t2, String.mk (ch1 :: ch2 :: rest.data), s1s, s2s, lg⟩
      = .ok (mkMatchDetailsDefault t1 t2 n a b lg) := by
  have hdrop : drop2 (String.mk (ch1 :: ch2 :: rest.data)) = rest := rfl
  simp [get_match_details, hdrop, hb, h1, h2]

/-- Witness for C10 at a concrete input: raw `bestof` content `"XY5"`, whose
tag is not `"BO"`, still builds with `bestof = 5`. -/
theorem c10_witness :
    get_match_details ⟨"a", "b", "XY5", "0", "0", "l"⟩
      = .ok (mkMatchDetailsDefault "a" "b" 5 0 0 "l") :=
  c10_bestof_tag_ignored 'X' 'Y' "5" "a" "b" "l" "0" "0" 5 0 0
    (by decide) (by decide) (by decide)

/-- A candidate id that the scan cannot return: either its hex parse fails
(so it is skipped) or its port probe fails. -/
def inactiveId (isOpen : Int → Bool) (id : String) : Prop :=
  ∀ q, pyIntHex? id = some q → isOpen q = false

theorem profile_init_ok (id : String) (p : Profile) (h : Profile.init? id = .ok p) :
    pyIntHex? id = some p.port ∧ p.profile_id = id := by
  unfold Profile.init? at h
  cases hx : pyIntHex? id with
  | none => rw [hx] at h; exact absurd h (by simp)
  | some q => rw [hx] at h; simp only [Except.ok.injEq] at h; subst h; exact ⟨rfl, rfl⟩

theorem findActive_all_inactive (isOpen : Int → Bool) (ids : List String)
    (h : ∀ y ∈ ids, inactiveId isOpen y) :
    findActive isOpen ids
      = .error (.scctError (.notFoundError "could not find any active SCCT profile")) := by
  induction ids with
  | nil => rfl
  | cons y rest ih =>
    have hy := h y (List.mem_cons_self y rest)
    have hrest : ∀ z ∈ rest, inactiveId isOpen z :=
      fun z hz => h z (List.mem_cons_of_mem y hz)
    unfold findActive
    cases hp : Profile.init? y with
    | error e => exact ih hrest
    | ok p =>
      have hport := (profile_init_ok y p hp).1
      have hcl : isOpen p.port = false := hy p.port hport
      simp only [hcl, Bool.false_eq_true, if_false]
      exact ih hrest

theorem findActive_first (isOpen : Int → Bool) (pre post : List String) (x : String) (p : Int)
    (hpre : ∀ y ∈ pre, inactiveId isOpen y)
    (hx : pyIntHex? x = some p) (hopen : isOpen p = true) :
    findActive isOpen (pre ++ x :: post) = .ok ⟨x, p⟩ := by
  induction pre with
  | nil =>
    show findActive isOpen (x :: post) = .ok ⟨x, p⟩
    unfold findActive Profile.init?
    rw [hx]
    simp only [hopen, if_true]
  | cons y rest ih =>
    have hy := hpre y (List.mem_cons_self y rest)
    have hrest : ∀ z ∈ rest, inactiveId isOpen z :=
      fun z hz => hpre z (List.mem_cons_of_mem y hz)
    show findActive isOpen (y :: (rest ++ x :: post)) = .ok ⟨x, p⟩
    unfold findActive
    cases hp : Profile.init? y with
    | error e => exact ih hrest
    | ok q =>
      have hport := (profile_init_ok y q hp).1
      have hcl : isOpen q.port = false := hy q.port hport
      simp only [hcl, Bool.false_eq_true, if_false]
      exact ih hrest

/-- Counterexample for C4: a profiles directory that exists but cannot be
listed raises `PermissionError`, which the `except FileNotFoundError` clause
does not catch — the failure escapes unclassified instead of being the
`DiscoveryError`-classified failure the claim requires for every unlistable
directory. -/
theorem c4_counterexample :
    get_active_profile .unreadable (fun _ => true) = .error .osError ∧
    get_active_profile .unreadable (fun _ => true)
      ≠ .error (.scctError (.discoveryError
          ("could not get profile directories from " ++ SCCT_PROFILES_DIR))) := by
  refine ⟨rfl, ?_⟩
  intro h
  injection h with h'
  exact PyErr.noConfusion h'

/-- Claim C4 (amended): `get_active_profile` returns the first candidate (in
enumeration order) whose id parses as hex and whose port probe succeeds; a
missing profiles directory gives the `DiscoveryError`-classified failure
(an unreadable one escapes unclassified); an exhausted candidate list gives
the `NotFoundError`-classified failure, a constructor distinct from
`DiscoveryError`. -/
theorem c4_discovery (isOpen : Int → Bool) (ids pre post : List String) (x : String)
    (p : Int) :
    (get_active_profile .missing isOpen
      = .error (.scctError (.discoveryError
          ("could not get profile directories from " ++ SCCT_PROFILES_DIR)))) ∧
    ((∀ y ∈ pre, inactiveId isOpen y) → pyIntHex? x = some p → isOpen p = true →
      get_active_profile (.ok (pre ++ x :: post)) isOpen = .ok ⟨x, p⟩) ∧
    ((∀ y ∈ ids, inactiveId isOpen y) →
      get_active_profile (.ok ids) isOpen
        = .error (.scctError (.notFoundError "could not find any active SCCT profile"))) ∧
    (∀ m1 m2 : String, ScctErr.notFoundError m1 ≠ ScctErr.discoveryError m2) := by
  refine ⟨rfl, ?_, ?_, ?_⟩
  · intro hpre hx hopen
    exact findActive_first isOpen pre post x p hpre hx hopen
  · intro h
    exact findActive_all_inactive isOpen ids h
  · intro m1 m2 hc
    exact ScctErr.noConfusion hc

/-- Witness for C4 at concrete inputs: with only port 2 open, the scan skips
the unparseable id `"zz"` and returns the profile of id `"2"`; with no
parseable-and-open candidate it fails with the `NotFoundError`-classified
failure. -/
theorem c4_witness :
    get_active_profile (.ok (["zz"] ++ "2" :: [])) (fun q => q == 2) = .ok ⟨"2", 2⟩ ∧
    get_active_profile (.ok ["zz", "yy"]) (fun q => q == 2)
      = .error (.scctError (.notFoundError "could not find any active SCCT profile")) := by
  constructor
  · refine (c4_discovery (fun q => q == 2) [] ["zz"] [] "2" 2).2.1 ?_ (by decide) (by decide)
    intro y hy q hq
    have hzz : y = "zz" := by simpa using hy
    subst hzz
    have hnone : pyIntHex? "zz" = none := by decide
    rw [hnone] at hq
    exact Option.noConfusion hq
  · refine (c4_discovery (fun q => q == 2) ["zz", "yy"] [] [] "" 0).2.2.1 ?_
    intro y hy q hq
    have hcase : y = "zz" ∨ y = "yy" := by simpa using hy
    rcases hcase with h | h <;> subst h
    · have hnone : pyIntHex? "zz" = none := by decide
      rw [hnone] at hq
      exact Option.noConfusion hq
    · have hnone : pyIntHex? "yy" = none := by decide
      rw [hnone] at hq
      exact Option.noConfusion hq

/-- Claim C5: constructing a `Profile` succeeds exactly when the identifier
parses as a base-16 integer, in which case the stored port is that integer;
an identifier that fails to parse raises the skip-level `ValueError`, and the
discovery loop continues past it unchanged. -/
theorem c5_profile_hex_port (id : String) :
    (∀ n, pyIntHex? id = some n → Profile.init? id = .ok ⟨id, n⟩) ∧
    (∀ p, Profile.init? id = .ok p → pyIntHex? id = some p.port ∧ p.profile_id = id) ∧
    (pyIntHex? id = none →
      Profile.init? id = .error ("could not get port info from profile: " ++ id)) ∧
    (pyIntHex? id = none → ∀ (isOpen : Int → Bool) (rest : List String),
      findActive isOpen (id :: rest) = findActive isOpen rest) := by
  refine ⟨?_, ?_, ?_, ?_⟩
  · intro n h
    unfold Profile.init?
    rw [h]
  · intro p h
    exact profile_init_ok id p h
  · intro h
    unfold Profile.init?
    rw [h]
  · intro h isOpen rest
    have hinit : Profile.init? id = .error ("could not get port info from profile: " ++ id) := by
      unfold Profile.init?
      rw [h]
    show (match Profile.init? id with
      | Except.error _ => findActive isOpen rest
      | Except.ok p => if isOpen p.port = true then Except.ok p else findActive isOpen rest)
      = findActive isOpen rest
    rw [hinit]

/-- Witness for C5 at concrete inputs: `"1A"` yields a profile with port 26,
and the unparseable id `"zz"` is skipped by the scan loop. -/
theorem c5_witness :
    Profile.init? "1A" = .ok ⟨"1A", 26⟩ ∧
    findActive (fun _ => true) ["zz"] = findActive (fun _ => true) [] := by
  constructor
  · exact (c5_profile_hex_port "1A").1 26 (by decide)
  · exact (c5_profile_hex_port "zz").2.2.2 (by decide) (fun _ => true) []

/-- Counterexample for C7: a casting-data file that exists but cannot be
opened for reading raises `PermissionError`, which the
`except FileNotFoundError` clause does not catch — the failure escapes
unclassified instead of being the `FieldUnavailable`-classified failure the
claim requires whenever the file "cannot be read". -/
theorem c7_counterexample :
    Profile.get_casting_data ⟨"1", 1⟩ (fun _ => .unreadable) "league.txt"
      = .error .osError ∧
    Profile.get_casting_data ⟨"1", 1⟩ (fun _ => .unreadable) "league.txt"
      ≠ .error (.scctError (.fieldUnavailable
          "Could not get data from file 1/casting_data/league.txt")) := by
  refine ⟨rfl, ?_⟩
  intro h
  injection h with h'
  exact PyErr.noConfusion h'

/-- Claim C7 (amended): reading casting data returns the full text contents
of the associated file; a missing file gives the `FieldUnavailable`-classified
failure carrying the field-file path, an unreadable one escapes unclassified;
no default or partial content is ever substituted. -/
theorem c7_casting_data (p : Profile) (fs : String → FileOutcome)
    (filename content : String) :
    (fs filename = .found content → p.get_casting_data fs filename = .ok content) ∧
    (fs filename = .fileNotFound →
      p.get_casting_data fs filename = .error (.scctError (.fieldUnavailable
        ("Could not get data from file " ++ p.profile_id ++ "/casting_data/" ++ filename)))) ∧
    (fs filename = .unreadable → p.get_casting_data fs filename = .error .osError) := by
  refine ⟨?_, ?_, ?_⟩ <;> intro h <;> unfold Profile.get_casting_data <;> rw [h]

/-- Witness for C7 at concrete inputs: full contents are returned when the
file exists, and a missing file gives the `FieldUnavailable`-classified
failure naming the file. -/
theorem c7_witness :
    Profile.get_casting_data ⟨"1", 1⟩ (fun _ => .found "EPT") "league.txt" = .ok "EPT" ∧
    Profile.get_casting_data ⟨"1", 1⟩ (fun _ => .fileNotFound) "league.txt"
      = .error (.scctError (.fieldUnavailable
          "Could not get data from file 1/casting_data/league.txt")) := by
  constructor
  · exact (c7_casting_data ⟨"1", 1⟩ (fun _ => .found "EPT") "league.txt" "EPT").1 rfl
  · exact (c7_casting_data ⟨"1", 1⟩ (fun _ => .fileNotFound) "league.txt" "").2.1 rfl

theorem isStr_true_iff (v : PyVal) : v.isStr = true ↔ ∃ s, v = .vstr s := by
  cases v <;> simp [PyVal.isStr]

theorem isInt_true_iff (v : PyVal) : v.isInt = true ↔ ∃ n, v = .vint n := by
  cases v <;> simp [PyVal.isInt]

/-- Claim C8: the `isinstance` validation of the record constructor is
fail-fast in the fixed source order team1, team2, bestof, score1, score2,
league: the first field of the wrong type aborts construction with the
`ValueError` naming exactly that field, and the result does not depend on
the (unvalidated) later arguments; when all six checks pass construction
succeeds. -/
theorem c8_failfast (v1 v2 v3 v4 v5 v6 : PyVal) :
    (v1.isStr = false → ∀ a2 a3 a4 a5 a6 : PyVal,
      MatchDetails.initDyn v1 a2 a3 a4 a5 a6 = .error "Bad value for team1") ∧
    (v1.isStr = true → v2.isStr = false → ∀ a3 a4 a5 a6 : PyVal,
      MatchDetails.initDyn v1 v2 a3 a4 a5 a6 = .error "Bad value for team2") ∧
    (v1.isStr = true → v2.isStr = true → v3.isInt = false → ∀ a4 a5 a6 : PyVal,
      MatchDetails.initDyn v1 v2 v3 a4 a5 a6 = .error "Bad value for bestof") ∧
    (v1.isStr = true → v2.isStr = true → v3.isInt = true → v4.isInt = false →
      ∀ a5 a6 : PyVal,
      MatchDetails.initDyn v1 v2 v3 v4 a5 a6 = .error "Bad value for score1") ∧
    (v1.isStr = true → v2.isStr = true → v3.isInt = true → v4.isInt = true →
      v5.isInt = false → ∀ a6 : PyVal,
      MatchDetails.initDyn v1 v2 v3 v4 v5 a6 = .error "Bad value for score2") ∧
    (v1.isStr = true → v2.isStr = true → v3.isInt = true → v4.isInt = true →
      v5.isInt = true → v6.isStr = false →
      MatchDetails.initDyn v1 v2 v3 v4 v5 v6 = .error "Bad value for league") ∧
    (v1.isStr = true → v2.isStr = true → v3.isInt = true → v4.isInt = true →
      v5.isInt = true → v6.isStr = true →
      ∃ m, MatchDetails.initDyn v1 v2 v3 v4 v5 v6 = .ok m) := by
  refine ⟨?_, ?_, ?_, ?_, ?_, ?_, ?_⟩
  · intro h a2 a3 a4 a5 a6
    cases v1 with
    | vstr s => simp [PyVal.isStr] at h
    | vint n => rfl
    | vnone => rfl
  · intro h1 h2 a3 a4 a5 a6
    obtain ⟨s1, rfl⟩ := (isStr_true_iff v1).mp h1
    cases v2 with
    | vstr s => simp [PyVal.isStr] at h2
    | vint n => rfl
    | vnone => rfl
  · intro h1 h2 h3 a4 a5 a6
    obtain ⟨s1, rfl⟩ := (isStr_true_iff v1).mp h1
    obtain ⟨s2, rfl⟩ := (isStr_true_iff v2).mp h2
    cases v3 with
    | vstr s => rfl
    | vint n => simp [PyVal.isInt] at h3
    | vnone => rfl
  · intro h1 h2 h3 h4 a5 a6
    obtain ⟨s1, rfl⟩ := (isStr_true_iff v1).mp h1
    obtain ⟨s2, rfl⟩ := (isStr_true_iff v2).mp h2
    obtain ⟨n3, rfl⟩ := (isInt_true_iff v3).mp h3
    cases v4 with
    | vstr s => rfl
    | vint n => simp [PyVal.isInt] at h4
    | vnone => rfl
  · intro h1 h2 h3 h4 h5 a6
    obtain ⟨s1, rfl⟩ := (isStr_true_iff v1).mp h1
    obtain ⟨s2, rfl⟩ := (isStr_true_iff v2).mp h2
    obtain ⟨n3, rfl⟩ := (isInt_true_iff v3).mp h3
    obtain ⟨n4, rfl⟩ := (isInt_true_iff v4).mp h4
    cases v5 with
    | vstr s => rfl
    | vint n => simp [PyVal.isInt] at h5
    | vnone => rfl
  · intro h1 h2 h3 h4 h5 h6
    obtain ⟨s1, rfl⟩ := (isStr_true_iff v1).mp h1
    obtain ⟨s2, rfl⟩ := (isStr_true_iff v2).mp h2
    obtain ⟨n3, rfl⟩ := (isInt_true_iff v3).mp h3
    obtain ⟨n4, rfl⟩ := (isInt_true_iff v4).mp h4
    obtain ⟨n5, rfl⟩ := (isInt_true_iff v5).mp h5
    cases v6 with
    | vstr s => simp [PyVal.isStr] at h6
    | vint n => rfl
    | vnone => rfl
  · intro h1 h2 h3 h4 h5 h6
    obtain ⟨s1, rfl⟩ := (isStr_true_iff v1).mp h1
    obtain ⟨s2, rfl⟩ := (isStr_true_iff v2).mp h2
    obtain ⟨n3, rfl⟩ := (isInt_true_iff v3).mp h3
    obtain ⟨n4, rfl⟩ := (isInt_true_iff v4).mp h4
    obtain ⟨n5, rfl⟩ := (isInt_true_iff v5).mp h5
    obtain ⟨s6, rfl⟩ := (isStr_true_iff v6).mp h6
    exact ⟨mkMatchDetailsDefault s1 s2 n3 n4 n5 s6, rfl⟩

/-- Witness for C8 at a concrete input: a string-typed `bestof` aborts with
the error naming `bestof`, with the later score and league arguments not even
well typed. -/
theorem c8_witness :
    MatchDetails.initDyn (.vstr "a") (.vstr "b") (.vstr "BO3") .vnone .vnone .vnone
      = .error "Bad value for bestof" :=
  (c8_failfast (.vstr "a") (.vstr "b") (.vstr "BO3") .vnone .vnone .vnone).2.2.1
    rfl rfl rfl .vnone .vnone .vnone
